import Mathlib

/-!
Verification development for a mouse/window tracker utility (`main.py`).

The program is a Tk-hosted timer loop: each tick queries the OS for the
cursor position, the tracked window's bounding rectangle and client
rectangle, and the cursor translated into client coordinates, formats the
snapshot as a fixed-width line, emits it, and reschedules itself.

The shallow embedding below models one tick as a pure function of an
environment recording the outcome of each OS query (success with a value,
or failure with an error message, mirroring the `OSError` raises in the
source).  Python truthiness of the window handle (`if not self.hwnd`) is
modelled explicitly; the except-clauses of the source become matches on
`Except`.  The monotonic timestamp is modelled as an exact count of
milliseconds (the printed value has exactly three decimal digits), and
the tick interval as a rational number of seconds.
-/

deriving instance DecidableEq for Except

namespace MouseTracker

/-- Screen point, mirroring the `POINT` ctypes structure (fields `x`, `y`). -/
structure POINT where
  x : Int
  y : Int
deriving DecidableEq, Repr

/-- Rectangle, mirroring the `RECT` ctypes structure
(fields `left`, `top`, `right`, `bottom`). -/
structure RECT where
  left : Int
  top : Int
  right : Int
  bottom : Int
deriving DecidableEq, Repr

/-- Outcomes of the two raw OS calls made by `get_client_rect_screen`:
`GetClientRect` (origin-relative client rectangle) and `ClientToScreen`
applied to the client origin `POINT(0, 0)`. -/
structure ClientRectQueries where
  getClientRect : Except String RECT
  clientToScreen : Except String POINT
deriving DecidableEq, Repr

/-- Embedding of `get_client_rect_screen` (main.py lines 90-101): query the
origin-relative client rectangle, translate the client origin to screen
coordinates, and return `(left, top, left + width, top + height)`.
A failing underlying call raises, modelled as `Except.error`. -/
def get_client_rect_screen (q : ClientRectQueries) : Except String RECT :=
  match q.getClientRect with
  | .error e => .error e
  | .ok rc =>
    match q.clientToScreen with
    | .error e => .error e
    | .ok pt =>
      let left := pt.x
      let top := pt.y
      let width := rc.right - rc.left
      let height := rc.bottom - rc.top
      .ok ⟨left, top, left + width, top + height⟩

/-- Embedding of `get_window_dpi` (main.py lines 109-113): the underlying
`GetDpiForWindow` call either yields an unsigned integer or raises; the
`try/except` converts any failure into `None`, so the wrapper always
returns normally with an optional integer. -/
def get_window_dpi (call : Except String Nat) : Except String (Option Int) :=
  match call with
  | .ok v => .ok (some (v : Int))
  | .error _ => .ok none

/-- Python truthiness of `self.hwnd`: falsy when `None` or `0`. -/
def hwndTruthy : Option Int → Bool
  | none => false
  | some n => n != 0

/-- Right-justify a string in a field of width `w` (Python's `:{w}d` /
`:{w}.3f` padding behaviour: wider strings are not truncated). -/
def rjust (w : Nat) (s : String) : String :=
  if w ≤ s.length then s else String.mk (List.replicate (w - s.length) ' ') ++ s

/-- Python `f"{n:5d}"`: decimal rendering right-justified to width 5. -/
def fmt_d5 (n : Int) : String := rjust 5 (toString n)

/-- The fractional part of the timestamp, zero-padded to three digits. -/
def frac3 (ms : Nat) : String :=
  let s := toString (ms % 1000)
  String.mk (List.replicate (3 - s.length) '0') ++ s

/-- Python `f"{now:9.3f}"` for a nonnegative timestamp held exactly as a
count of milliseconds: integer part, a dot, three fractional digits,
right-justified to width 9. -/
def fmt_f9_3 (ms : Nat) : String :=
  rjust 9 (toString (ms / 1000) ++ "." ++ frac3 ms)

/-- Embedding of the f-string built in `TrackerApp._tick`
(main.py lines 172-178), with the timestamp as exact milliseconds. -/
def format_line (tMs : Nat) (mx my : Int) (w c : RECT) (relx rely : Int) : String :=
  "t=" ++ fmt_f9_3 tMs ++ "  " ++
  "mouse=(" ++ fmt_d5 mx ++ "," ++ fmt_d5 my ++ ")" ++ "  " ++
  "win=[" ++ fmt_d5 w.left ++ "," ++ fmt_d5 w.top ++ "," ++ fmt_d5 w.right ++ "," ++ fmt_d5 w.bottom ++ "]" ++ "  " ++
  "client=[" ++ fmt_d5 c.left ++ "," ++ fmt_d5 c.top ++ "," ++ fmt_d5 c.right ++ "," ++ fmt_d5 c.bottom ++ "]" ++ "  " ++
  "mouse_in_client=(" ++ fmt_d5 relx ++ "," ++ fmt_d5 rely ++ ")"

/-- A tick's snapshot: timestamp (milliseconds), cursor point, window
rectangle, client rectangle in screen coordinates, and the cursor in
client-relative coordinates. -/
structure Sample where
  tMs : Nat
  mouse : POINT
  win : RECT
  client : RECT
  rel : POINT
deriving DecidableEq, Repr

/-- The line the tick prints for a sample. -/
def format_sample (s : Sample) : String :=
  format_line s.tMs s.mouse.x s.mouse.y s.win s.client s.rel.x s.rel.y

/-- The spec's group separator: two spaces. -/
def spec_sep : String := "  "

/-- Formatting template written from the spec's words: five labeled groups
joined by two-space separators; every integer field right-justified in a
5-character field; the timestamp right-justified in 9 characters with
exactly 3 decimal digits. -/
def spec_format_sample (s : Sample) : String :=
  let g1 := "t=" ++ rjust 9 (toString (s.tMs / 1000) ++ "." ++ frac3 s.tMs)
  let g2 := "mouse=(" ++ rjust 5 (toString s.mouse.x) ++ "," ++ rjust 5 (toString s.mouse.y) ++ ")"
  let g3 := "win=[" ++ rjust 5 (toString s.win.left) ++ "," ++ rjust 5 (toString s.win.top) ++ "," ++ rjust 5 (toString s.win.right) ++ "," ++ rjust 5 (toString s.win.bottom) ++ "]"
  let g4 := "client=[" ++ rjust 5 (toString s.client.left) ++ "," ++ rjust 5 (toString s.client.top) ++ "," ++ rjust 5 (toString s.client.right) ++ "," ++ rjust 5 (toString s.client.bottom) ++ "]"
  let g5 := "mouse_in_client=(" ++ rjust 5 (toString s.rel.x) ++ "," ++ rjust 5 (toString s.rel.y) ++ ")"
  g1 ++ spec_sep ++ g2 ++ spec_sep ++ g3 ++ spec_sep ++ g4 ++ spec_sep ++ g5

/-- Outcome of every OS interaction one tick can attempt:
`winfoId` is the lazy handle resolution `int(self.root.winfo_id())`,
the rest are the four adapter queries, and `nowMs` is the monotonic
timestamp `time.perf_counter()` in exact milliseconds. -/
structure TickEnv where
  winfoId : Except String Int
  cursor : Except String POINT
  windowRect : Except String RECT
  clientQueries : ClientRectQueries
  screenToClient : Except String POINT
  nowMs : Nat
deriving DecidableEq, Repr

/-- Observable result of one tick: the (possibly re-resolved) handle, the
sample lines printed to standard output, the `[error]` lines printed to
standard error, and the delays (milliseconds) of the `after` calls made. -/
structure TickResult where
  hwnd : Option Int
  stdout : List String
  stderr : List String
  scheduled : List Nat
deriving DecidableEq, Repr

/-- `int(self.interval * 1000)`: the reschedule delay in milliseconds
(truncation toward zero coincides with `Rat.floor` for the positive
intervals the app holds). -/
def delay_ms (interval : ℚ) : Nat := (Rat.floor (interval * 1000)).toNat

/-- The body of the outer `try` in `TrackerApp._tick` after handle
resolution (main.py lines 158-179), with the handle already updated:
gather the cursor position, the window rectangle and client rectangle
(zeroed when the handle is falsy), translate the cursor to client
coordinates with `(0, 0)` substituted when `screen_to_client` raises,
and produce the formatted line.  An uncaught raise is `Except.error`. -/
def tick_body (env : TickEnv) (hwnd : Option Int) : Except String String :=
  match env.cursor with
  | .error e => .error e
  | .ok m =>
    let wres : Except String RECT :=
      if hwndTruthy hwnd then env.windowRect else .ok ⟨0, 0, 0, 0⟩
    match wres with
    | .error e => .error e
    | .ok wrect =>
      let cres : Except String RECT :=
        if hwndTruthy hwnd then get_client_rect_screen env.clientQueries else .ok ⟨0, 0, 0, 0⟩
      match cres with
      | .error e => .error e
      | .ok crect =>
        let rel : POINT :=
          if hwndTruthy hwnd then
            match env.screenToClient with
            | .ok p => p
            | .error _ => ⟨0, 0⟩
          else ⟨0, 0⟩
        .ok (format_line env.nowMs m.x m.y wrect crect rel.x rel.y)

/-- Run the tick body and fold its outcome into the observable result:
a successful body prints one sample line, a raise prints one `[error]`
line on standard error; either way exactly one reschedule follows. -/
def run_body (interval : ℚ) (env : TickEnv) (hwnd : Option Int) : TickResult :=
  match tick_body env hwnd with
  | .ok line => ⟨hwnd, [line], [], [delay_ms interval]⟩
  | .error e => ⟨hwnd, [], ["[error] " ++ e], [delay_ms interval]⟩

/-- Embedding of `TrackerApp._tick` (main.py lines 149-185).
If the stop flag is set the tick returns immediately: nothing printed,
nothing rescheduled.  Otherwise the handle is re-resolved when falsy
(a raise there skips the body but not the reschedule, and leaves the
stored handle unchanged), the body runs, and one reschedule is made. -/
def tick (interval : ℚ) (stopFlag : Bool) (hwnd0 : Option Int) (env : TickEnv) : TickResult :=
  if stopFlag then ⟨hwnd0, [], [], []⟩
  else if hwndTruthy hwnd0 then run_body interval env hwnd0
  else
    match env.winfoId with
    | .error e => ⟨hwnd0, [], ["[error] " ++ e], [delay_ms interval]⟩
    | .ok h => run_body interval env (some h)

/-- The tick loop as driven by the Tk event loop: `loop_state n` is
`some h` when an `n`-th tick will fire with stored handle `h`, and `none`
when the loop has terminated (the previous tick scheduled nothing).
`stops n` is the stop flag as read at the start of tick `n`. -/
def loop_state (interval : ℚ) (stops : Nat → Bool) (envs : Nat → TickEnv)
    (h0 : Option Int) : Nat → Option (Option Int)
  | 0 => some h0
  | n + 1 =>
    match loop_state interval stops envs h0 n with
    | none => none
    | some h =>
      let r := tick interval (stops n) h (envs n)
      if r.scheduled = [] then none else some r.hwnd

/-- Digit string to value, as positional decimal. -/
def digitsVal (l : List Char) : Nat :=
  l.foldl (fun a c => a * 10 + (c.toNat - 48)) 0

/-- The shape of a plain decimal literal accepted by Python's `float`:
an optional minus sign, integer-part digits, fractional-part digits. -/
structure ParsedFloat where
  neg : Bool
  ip : List Char
  fp : List Char
deriving DecidableEq, Repr

/-- Syntactic part of Python's `float(s)` on plain decimal literals (an
optional sign, then digits with at most one dot and at least one digit) —
the forms the interval argument takes; anything else is a `ValueError`,
i.e. `none`. -/
def float_parse (l : List Char) : Option ParsedFloat :=
  let signed : Bool × List Char :=
    match l with
    | c :: r => if c = '-' then (true, r) else if c = '+' then (false, r) else (false, l)
    | [] => (false, l)
  let rest := signed.2
  match rest.span (fun c => c != '.') with
  | (ip, []) =>
    if !ip.isEmpty && ip.all Char.isDigit then some ⟨signed.1, ip, []⟩ else none
  | (ip, _ :: fp) =>
    if (!ip.isEmpty || !fp.isEmpty) && ip.all Char.isDigit && fp.all Char.isDigit then
      some ⟨signed.1, ip, fp⟩
    else none

/-- The rational value of a parsed decimal literal. -/
def float_value (p : ParsedFloat) : ℚ :=
  (if p.neg then -1 else 1) *
    ((digitsVal p.ip : ℚ) + (digitsVal p.fp : ℚ) / (10 : ℚ) ^ p.fp.length)

/-- `float` on a string argument: parse, then take the decimal value. -/
def python_float (s : String) : Option ℚ := (float_parse s.data).map float_value

/-- Result of the interval-argument handling in `main`. -/
structure IntervalConfig where
  interval : ℚ
  stderr : List String
deriving DecidableEq, Repr

/-- Embedding of the argument handling in `main` (main.py lines 204-211):
no argument keeps the default `0.1`; a parsable argument replaces it; a
`ValueError` prints the usage line on standard error and keeps the
default. -/
def parse_interval_arg (argv1 : Option String) : IntervalConfig :=
  match argv1 with
  | none => ⟨1 / 10, []⟩
  | some a =>
    match python_float a with
    | some q => ⟨q, []⟩
    | none => ⟨1 / 10, ["Usage: python tracker_cli.py [interval_seconds]"]⟩

/-- Embedding of the clamp in `TrackerApp.__init__` (main.py line 118):
`self.interval = max(0.01, float(interval_sec))`. -/
def clamp_interval (i : ℚ) : ℚ := max (1 / 100) i

/-- The tick interval the app ends up with for a given first CLI argument. -/
def effective_interval (argv1 : Option String) : ℚ :=
  clamp_interval (parse_interval_arg argv1).interval

/-- A client-rectangle query pair in which both raw calls succeed:
a 384×200 client area whose origin sits at screen point (108, 132). -/
def okClientQueries : ClientRectQueries :=
  ⟨.ok ⟨0, 0, 384, 200⟩, .ok ⟨108, 132⟩⟩

/-- A tick environment in which every OS query succeeds. -/
def envAllOk : TickEnv :=
  { winfoId := .ok 1
    cursor := .ok ⟨1200, 640⟩
    windowRect := .ok ⟨100, 100, 500, 340⟩
    clientQueries := okClientQueries
    screenToClient := .ok ⟨12, 20⟩
    nowMs := 12345 }

/-- As `envAllOk` but `GetCursorPos` fails. -/
def envCursorFail : TickEnv := { envAllOk with cursor := .error "GetCursorPos failed" }

/-- As `envAllOk` but `GetWindowRect` fails. -/
def envWinRectFail : TickEnv := { envAllOk with windowRect := .error "GetWindowRect failed" }

/-- As `envAllOk` but `GetClientRect` fails. -/
def envClientFail : TickEnv :=
  { envAllOk with clientQueries := ⟨.error "GetClientRect failed", .ok ⟨108, 132⟩⟩ }

/-- As `envAllOk` but `ScreenToClient` fails. -/
def envS2CFail : TickEnv := { envAllOk with screenToClient := .error "ScreenToClient failed" }

/-- As `envAllOk` but handle resolution yields the falsy handle 0. -/
def envNoHandle : TickEnv := { envAllOk with winfoId := .ok 0 }

/-- A concrete sample used to exercise the formatting theorems. -/
def exSample : Sample :=
  ⟨12345, ⟨1200, 640⟩, ⟨100, 100, 500, 340⟩, ⟨108, 132, 492, 332⟩, ⟨12, 20⟩⟩

/-! ## Theorems -/

/-- If the loop has terminated by step `n`, it stays terminated at every
later step. -/
theorem loop_state_none_mono (i : ℚ) (stops : Nat → Bool) (envs : Nat → TickEnv)
    (h0 : Option Int) {n m : Nat} (hnm : n ≤ m)
    (h : loop_state i stops envs h0 n = none) :
    loop_state i stops envs h0 m = none := by
  induction hnm with
  | refl => exact h
  | step _ ih => simp [loop_state, ih]

/-- C2: for every execution of a tick in the Running state — whatever the
outcome of handle resolution and of each OS query — exactly one subsequent
tick is scheduled, after the configured interval: the list of `after`
delays is exactly `[delay_ms i]`. -/
theorem tick_running_schedules_exactly_once (i : ℚ) (hwnd0 : Option Int) (env : TickEnv) :
    (tick i false hwnd0 env).scheduled = [delay_ms i] := by
  by_cases hT : hwndTruthy hwnd0
  · cases hB : tick_body env hwnd0 <;> simp [tick, run_body, hT, hB]
  · cases hE : env.winfoId with
    | error e => simp [tick, hT, hE]
    | ok h => cases hB : tick_body env (some h) <;> simp [tick, run_body, hT, hE, hB]

/-- C3: a tick that observes the stop flag is a no-op — it leaves the
handle unchanged, prints nothing on either stream, schedules nothing, and
does not depend on any OS query outcome — and once a live loop step reads
the stop flag as set, every later loop step is terminated. -/
theorem tick_stopped_noop_and_terminates (i : ℚ) (hwnd0 : Option Int) (env : TickEnv) :
    tick i true hwnd0 env = ⟨hwnd0, [], [], []⟩ ∧
    (∀ env' : TickEnv, tick i true hwnd0 env = tick i true hwnd0 env') ∧
    (∀ (stops : Nat → Bool) (envs : Nat → TickEnv) (h0 : Option Int) (n : Nat),
        loop_state i stops envs h0 n = some hwnd0 → stops n = true →
        ∀ m : Nat, n < m → loop_state i stops envs h0 m = none) := by
  refine ⟨rfl, fun env' => rfl, ?_⟩
  intro stops envs h0 n hn hs m hm
  have hsucc : loop_state i stops envs h0 (n + 1) = none := by
    simp [loop_state, hn, hs, tick]
  exact loop_state_none_mono i stops envs h0 hm hsucc

/-- Witness for C3: a stopped tick at concrete inputs is the no-op result,
it is insensitive to the query environment, and a loop whose flag is set
at step 0 is terminated at step 1. -/
theorem tick_stopped_noop_and_terminates_witness :
    tick 1 true (some 1) envAllOk = ⟨some 1, [], [], []⟩ ∧
    tick 1 true (some 1) envAllOk = tick 1 true (some 1) envCursorFail ∧
    loop_state 1 (fun _ => true) (fun _ => envAllOk) (some 1) 1 = none :=
  ⟨(tick_stopped_noop_and_terminates 1 (some 1) envAllOk).1,
   (tick_stopped_noop_and_terminates 1 (some 1) envAllOk).2.1 envCursorFail,
   (tick_stopped_noop_and_terminates 1 (some 1) envAllOk).2.2
     (fun _ => true) (fun _ => envAllOk) (some 1) 0 rfl rfl 1 (by decide)⟩

/-- C1 (as stated, refuted): with the cursor query failing and every other
query fine, the tick emits NO sample line at all — the zeroed-fallback,
line-still-emitted behaviour claimed for cursor/window/client query
failures does not occur; only an `[error]` line appears. -/
theorem cursor_failure_no_sample_cex :
    (tick 1 false (some 1) envCursorFail).stdout = [] ∧
    (tick 1 false (some 1) envCursorFail).stderr = ["[error] GetCursorPos failed"] :=
  ⟨rfl, rfl⟩

/-- C1 (amended): when the cursor-position, window-rectangle, or
client-rectangle query fails during a Running tick with a truthy handle,
the error is reported as a single `[error]` line on the diagnostic stream,
no sample line is emitted for that tick, and the loop still schedules
exactly one subsequent tick. -/
theorem tick_query_failure_reported_no_sample (i : ℚ) (h : Int) (env : TickEnv) (e : String)
    (hT : hwndTruthy (some h) = true)
    (hfail : env.cursor = .error e
      ∨ (env.windowRect = .error e ∧ ∃ m, env.cursor = .ok m)
      ∨ (get_client_rect_screen env.clientQueries = .error e ∧
          (∃ m, env.cursor = .ok m) ∧ ∃ w, env.windowRect = .ok w)) :
    (tick i false (some h) env).stderr = ["[error] " ++ e] ∧
    (tick i false (some h) env).stdout = [] ∧
    (tick i false (some h) env).scheduled = [delay_ms i] := by
  rcases hfail with hc | ⟨hw, m, hc⟩ | ⟨hcl, ⟨m, hc⟩, w, hw⟩
  · simp [tick, run_body, tick_body, hT, hc]
  · simp [tick, run_body, tick_body, hT, hc, hw]
  · simp [tick, run_body, tick_body, hT, hc, hw, hcl]

/-- Witness for the amended C1, at a concrete failing cursor query. -/
theorem tick_query_failure_reported_no_sample_witness :
    (tick 1 false (some 1) envCursorFail).stderr = ["[error] " ++ "GetCursorPos failed"] ∧
    (tick 1 false (some 1) envCursorFail).stdout = [] ∧
    (tick 1 false (some 1) envCursorFail).scheduled = [delay_ms 1] :=
  tick_query_failure_reported_no_sample 1 1 envCursorFail "GetCursorPos failed" rfl (Or.inl rfl)

/-- C4: whenever the raw client-rectangle query and the origin translation
both succeed, `get_client_rect_screen` returns
`(left, top, left + width, top + height)` with `(left, top)` the translated
client origin and `width`/`height` from the raw query; consequently the
returned rectangle's width and height equal the raw client width and
height. -/
theorem get_client_rect_screen_spec (q : ClientRectQueries) (rc : RECT) (pt : POINT)
    (h1 : q.getClientRect = .ok rc) (h2 : q.clientToScreen = .ok pt) :
    get_client_rect_screen q =
      .ok ⟨pt.x, pt.y, pt.x + (rc.right - rc.left), pt.y + (rc.bottom - rc.top)⟩ ∧
    ∀ r : RECT, get_client_rect_screen q = .ok r →
      r.right - r.left = rc.right - rc.left ∧ r.bottom - r.top = rc.bottom - rc.top := by
  constructor
  · simp [get_client_rect_screen, h1, h2]
  · intro r hr
    simp [get_client_rect_screen, h1, h2] at hr
    rw [← hr]
    constructor <;> ring

/-- Witness for C4: the concrete successful query pair. -/
theorem get_client_rect_screen_spec_witness :
    get_client_rect_screen okClientQueries =
      .ok ⟨108, 132, 108 + (384 - 0), 132 + (200 - 0)⟩ ∧
    ∀ r : RECT, get_client_rect_screen okClientQueries = .ok r →
      r.right - r.left = 384 - 0 ∧ r.bottom - r.top = 200 - 0 :=
  get_client_rect_screen_spec okClientQueries ⟨0, 0, 384, 200⟩ ⟨108, 132⟩ rfl rfl

/-- C5: the formatted sample line is a pure, deterministic function of the
Sample's fields — samples with identical field values format to identical
strings — and the line follows the spec's template: five labeled groups
joined by two-space separators, integers right-justified in 5 characters,
the timestamp right-justified in 9 characters with exactly 3 decimal
digits. -/
theorem format_sample_deterministic_and_template :
    (∀ s1 s2 : Sample, s1.tMs = s2.tMs → s1.mouse = s2.mouse → s1.win = s2.win →
        s1.client = s2.client → s1.rel = s2.rel → format_sample s1 = format_sample s2) ∧
    (∀ s : Sample, format_sample s = spec_format_sample s) := by
  constructor
  · intro s1 s2 h1 h2 h3 h4 h5
    cases s1
    cases s2
    simp_all
  · intro s
    have hd : ∀ a b : String, (a ++ b).data = a.data ++ b.data := fun a b => rfl
    refine String.ext ?_
    simp only [format_sample, format_line, spec_format_sample, spec_sep, fmt_d5, fmt_f9_3,
      hd, List.append_assoc]

/-- Witness for C5 at a concrete sample. -/
theorem format_sample_deterministic_and_template_witness :
    format_sample exSample = format_sample exSample ∧
    format_sample exSample = spec_format_sample exSample :=
  ⟨format_sample_deterministic_and_template.1 exSample exSample rfl rfl rfl rfl rfl,
   format_sample_deterministic_and_template.2 exSample⟩

/-- C6: the argument `"0.05"` yields an effective interval of 0.05 s; the
argument `"abc"` yields the default 0.1 s together with a usage line on the
error stream; the argument `"0.001"` is clamped up to the 0.01 s floor. -/
theorem interval_arg_cases :
    effective_interval (some "0.05") = 1 / 20 ∧
    (parse_interval_arg (some "0.05")).stderr = [] ∧
    (parse_interval_arg (some "abc")).interval = 1 / 10 ∧
    (parse_interval_arg (some "abc")).stderr =
      ["Usage: python tracker_cli.py [interval_seconds]"] ∧
    effective_interval (some "abc") = 1 / 10 ∧
    effective_interval (some "0.001") = 1 / 100 := by
  have h05 : float_parse "0.05".data = some ⟨false, ['0'], ['0', '5']⟩ := by decide
  have habc : float_parse "abc".data = none := by decide
  have h001 : float_parse "0.001".data = some ⟨false, ['0'], ['0', '0', '1']⟩ := by decide
  refine ⟨?_, ?_, ?_, ?_, ?_, ?_⟩ <;>
    simp [effective_interval, parse_interval_arg, python_float, h05, habc, h001,
      float_value, digitsVal, clamp_interval] <;>
    norm_num

/-- C7: in a Running tick whose stored handle is falsy and whose lazy
re-resolution still yields the unavailable handle 0, the window and client
rectangles default to `(0,0,0,0)`, the client-relative coordinates default
to `(0,0)`, and the tick still emits a formatted sample line (and
reschedules). -/
theorem tick_unresolved_handle_zeroed_fields (i : ℚ) (hwnd0 : Option Int) (env : TickEnv)
    (m : POINT)
    (hF : hwndTruthy hwnd0 = false)
    (hres : env.winfoId = .ok 0)
    (hcur : env.cursor = .ok m) :
    (tick i false hwnd0 env).stdout =
      [format_line env.nowMs m.x m.y ⟨0, 0, 0, 0⟩ ⟨0, 0, 0, 0⟩ 0 0] ∧
    (tick i false hwnd0 env).scheduled = [delay_ms i] := by
  have h0 : hwndTruthy (some 0) = false := rfl
  simp [tick, hF, hres, run_body, tick_body, hcur, h0]

/-- Witness for C7: a concrete unresolved-handle tick. -/
theorem tick_unresolved_handle_zeroed_fields_witness :
    (tick 1 false none envNoHandle).stdout =
      [format_line envNoHandle.nowMs 1200 640 ⟨0, 0, 0, 0⟩ ⟨0, 0, 0, 0⟩ 0 0] ∧
    (tick 1 false none envNoHandle).scheduled = [delay_ms 1] :=
  tick_unresolved_handle_zeroed_fields 1 none envNoHandle ⟨1200, 640⟩ rfl rfl rfl

/-- C8: `get_window_dpi` is total at its public interface: whatever the
underlying `GetDpiForWindow` call does, the wrapper returns normally with
an optional integer — the integer when the call succeeds, `none` when it
fails — and never propagates a failure. -/
theorem get_window_dpi_total (call : Except String Nat) :
    (∃ o : Option Int, get_window_dpi call = .ok o) ∧
    (∀ v : Nat, call = .ok v → get_window_dpi call = .ok (some (v : Int))) ∧
    (∀ e : String, call = .error e → get_window_dpi call = .ok none) := by
  refine ⟨?_, ?_, ?_⟩
  · cases call with
    | ok v => exact ⟨some (v : Int), rfl⟩
    | error e => exact ⟨none, rfl⟩
  · intro v hv
    rw [hv]
    rfl
  · intro e he
    rw [he]
    rfl

/-- Witness for C8 at a concrete failing DPI call. -/
theorem get_window_dpi_total_witness :
    (∃ o : Option Int, get_window_dpi (.error "GetDpiForWindow unavailable") = .ok o) ∧
    get_window_dpi (.error "GetDpiForWindow unavailable") = .ok none :=
  ⟨(get_window_dpi_total (.error "GetDpiForWindow unavailable")).1,
   (get_window_dpi_total (.error "GetDpiForWindow unavailable")).2.2 _ rfl⟩

/-- C9: within a Running tick with a truthy handle, the `(0,0)`
substitution applies only to a failing screen-to-client translation — then
the sample line is still emitted with relative coordinates `(0,0)` and a
clean error stream — whereas a failing cursor-position, window-rectangle,
or client-rectangle query yields no sample line at all, only an `[error]`
line, while the next tick is still scheduled. -/
theorem zero_substitution_scope :
    (∀ (i : ℚ) (h : Int) (env : TickEnv) (e : String) (m : POINT) (w c : RECT),
        hwndTruthy (some h) = true → env.cursor = .ok m → env.windowRect = .ok w →
        get_client_rect_screen env.clientQueries = .ok c →
        env.screenToClient = .error e →
        (tick i false (some h) env).stdout = [format_line env.nowMs m.x m.y w c 0 0] ∧
        (tick i false (some h) env).stderr = [] ∧
        (tick i false (some h) env).scheduled = [delay_ms i]) ∧
    (∀ (i : ℚ) (h : Int) (env : TickEnv) (e : String),
        hwndTruthy (some h) = true → env.cursor = .error e →
        (tick i false (some h) env).stdout = [] ∧
        (tick i false (some h) env).stderr = ["[error] " ++ e] ∧
        (tick i false (some h) env).scheduled = [delay_ms i]) ∧
    (∀ (i : ℚ) (h : Int) (env : TickEnv) (e : String) (m : POINT),
        hwndTruthy (some h) = true → env.cursor = .ok m → env.windowRect = .error e →
        (tick i false (some h) env).stdout = [] ∧
        (tick i false (some h) env).stderr = ["[error] " ++ e] ∧
        (tick i false (some h) env).scheduled = [delay_ms i]) ∧
    (∀ (i : ℚ) (h : Int) (env : TickEnv) (e : String) (m : POINT) (w : RECT),
        hwndTruthy (some h) = true → env.cursor = .ok m → env.windowRect = .ok w →
        get_client_rect_screen env.clientQueries = .error e →
        (tick i false (some h) env).stdout = [] ∧
        (tick i false (some h) env).stderr = ["[error] " ++ e] ∧
        (tick i false (some h) env).scheduled = [delay_ms i]) := by
  refine ⟨?_, ?_, ?_, ?_⟩
  · intro i h env e m w c hT hc hw hcl hs
    simp [tick, run_body, tick_body, hT, hc, hw, hcl, hs]
  · intro i h env e hT hc
    simp [tick, run_body, tick_body, hT, hc]
  · intro i h env e m hT hc hw
    simp [tick, run_body, tick_body, hT, hc, hw]
  · intro i h env e m w hT hc hw hcl
    simp [tick, run_body, tick_body, hT, hc, hw, hcl]

/-- Witness for C9: the concrete failing screen-to-client environment and
the concrete failing cursor environment. -/
theorem zero_substitution_scope_witness :
    ((tick 1 false (some 1) envS2CFail).stdout =
      [format_line envS2CFail.nowMs 1200 640 ⟨100, 100, 500, 340⟩ ⟨108, 132, 492, 332⟩ 0 0] ∧
     (tick 1 false (some 1) envS2CFail).stderr = [] ∧
     (tick 1 false (some 1) envS2CFail).scheduled = [delay_ms 1]) ∧
    ((tick 1 false (some 1) envWinRectFail).stdout = [] ∧
     (tick 1 false (some 1) envWinRectFail).stderr = ["[error] " ++ "GetWindowRect failed"] ∧
     (tick 1 false (some 1) envWinRectFail).scheduled = [delay_ms 1]) :=
  ⟨zero_substitution_scope.1 1 1 envS2CFail "ScreenToClient failed"
     ⟨1200, 640⟩ ⟨100, 100, 500, 340⟩ ⟨108, 132, 492, 332⟩ rfl rfl rfl rfl rfl,
   zero_substitution_scope.2.2.1 1 1 envWinRectFail "GetWindowRect failed"
     ⟨1200, 640⟩ rfl rfl rfl⟩

/-- C10: for every CLI argument that parses as a number — zero and
negative values included — no diagnostic is emitted and the effective tick
interval is `max 0.01 value`: the floor is exactly 0.01 s and non-positive
numeric inputs are accepted and clamped, not treated as malformed. -/
theorem numeric_interval_clamped (s : String) (q : ℚ)
    (hp : python_float s = some q) :
    (parse_interval_arg (some s)).stderr = [] ∧
    (parse_interval_arg (some s)).interval = q ∧
    effective_interval (some s) = max (1 / 100) q := by
  refine ⟨?_, ?_, ?_⟩ <;>
    simp [parse_interval_arg, hp, effective_interval, clamp_interval]

/-- Witness for C10 at the concrete negative argument `"-2"`. -/
theorem numeric_interval_clamped_witness :
    (parse_interval_arg (some "-2")).stderr = [] ∧
    (parse_interval_arg (some "-2")).interval = float_value ⟨true, ['2'], []⟩ ∧
    effective_interval (some "-2") = max (1 / 100) (float_value ⟨true, ['2'], []⟩) :=
  numeric_interval_clamped "-2" (float_value ⟨true, ['2'], []⟩) rfl

end MouseTracker
